import Mathlib

/-!
Verification development for the homers metrics exporter.

The definitions below are a shallow embedding of the Rust sources:
configuration normalisation (src/config.rs), the geo resolver and the
canonical records (src/providers/structs.rs), the provider adapters
(src/providers/{radarr,overseerr,plex}.rs), the task model
(src/tasks.rs), the scrape executor (src/http_server.rs) and the metric
encoder (src/prometheus.rs).

Modelling conventions:
- Rust i64 values are modelled as Int, f64 gauge values as Rat.  Every
  f64 arithmetic step relevant to a proved statement operates on exact
  integers far below 2^53, where f64 arithmetic is exact, so exact
  rational arithmetic is a faithful model.
- Outbound HTTP calls and geo lookups are external effects: a fetch
  operation is modelled as a function of the response the environment
  hands back (an Except value), and the geo resolver as a function of
  the lookup outcome.
- A Rust panic (indexing an empty Vec, Option::unwrap on None, or a
  match arm that does not exist in the source) is modelled as none.
-/

namespace Homers

/-! ## Configuration address normalisation (src/config.rs)

Rust strings are byte arrays; the stripped character is ASCII, so a
List Char model of `remove_trailing_slash` is byte-faithful. -/

/-- Embeds config.rs `remove_trailing_slash`: strips exactly one trailing
slash when present. -/
def remove_trailing_slash (s : List Char) : List Char :=
  if s.getLast? = some '/' then s.dropLast else s

/-! ## Geo resolver (src/providers/structs.rs, get_ip_info) -/

/-- Canonical Location record (src/providers/structs.rs). -/
structure Location where
  city : String
  country : String
  ip_address : String
  latitude : String
  longitude : String
deriving Repr, DecidableEq

/-- The fields of a successful ipgeolocate Locator::get response that
get_ip_info reads. -/
structure LocatorResponse where
  city : String
  country : String
  latitude : String
  longitude : String
deriving Repr, DecidableEq

/-- Embeds structs.rs `get_ip_info`.  The external lookup outcome is the
second argument: some on Ok, none on Err. -/
def get_ip_info (ip : String) (lookup : Option LocatorResponse) : Location :=
  match lookup with
  | some location =>
      { city := location.city
        country := location.country
        ip_address := ip
        latitude := location.latitude
        longitude := location.longitude }
  | none =>
      { city := "Unknown"
        country := "Unknown"
        ip_address := ip
        latitude := "0.0"
        longitude := "0.0" }

/-! ## Radarr adapter (src/providers/radarr.rs) -/

/-- Wire-level Radarr movie (src/providers/structs/radarr.rs).  Only the
fields that get_radarr_movies reads are carried; the remaining wire
fields are never consulted by the embedded operations. -/
structure WireMovie where
  title : String
  has_file : Bool
  monitored : Bool
  is_available : Bool
deriving Repr, DecidableEq

/-- Normalised Radarr movie (src/providers/radarr.rs RadarrMovie). -/
structure RadarrMovie where
  title : String
  has_file : Bool
  monitored : Bool
  is_available : Bool
  missing_available : Bool
deriving Repr, DecidableEq

/-- Adapter-level provider error (src/providers.rs ProviderError); the
payload is irrelevant to every claim. -/
structure ProviderError where
  message : String
deriving Repr, DecidableEq

/-- Embeds radarr.rs `Radarr::set_missing_movies`. -/
def set_missing_movies (movie : WireMovie) : Bool :=
  (!movie.has_file) && movie.is_available

/-- Embeds radarr.rs `Radarr::get_radarr_movies`; the first argument is
the outcome of the private get_movies HTTP fetch. -/
def get_radarr_movies (fetch : Except ProviderError (List WireMovie)) :
    List RadarrMovie :=
  let movies := match fetch with
    | .ok movies => movies
    | .error _ => []
  movies.map (fun movie =>
    { title := movie.title
      has_file := movie.has_file
      monitored := movie.monitored
      is_available := movie.is_available
      missing_available := set_missing_movies movie })

/-! ## Overseerr status codes (src/providers/overseerr.rs) -/

inductive RequestStatus where
  | Pending
  | Approved
  | Declined
deriving Repr, DecidableEq

/-- Embeds overseerr.rs `impl From<i64> for RequestStatus`. -/
def RequestStatus.ofInt (status : Int) : RequestStatus :=
  match status with
  | 1 => .Pending
  | 2 => .Approved
  | 3 => .Declined
  | _ => .Pending

/-- Embeds overseerr.rs `RequestStatus::as_f64`. -/
def RequestStatus.as_f64 : RequestStatus → Rat
  | .Pending => 1
  | .Approved => 2
  | .Declined => 3

inductive MediaStatus where
  | Unknown
  | Pending
  | Processing
  | PartiallyAvailable
  | Available
deriving Repr, DecidableEq

/-- Embeds overseerr.rs `impl From<i64> for MediaStatus`. -/
def MediaStatus.ofInt (status : Int) : MediaStatus :=
  match status with
  | 1 => .Unknown
  | 2 => .Pending
  | 3 => .Processing
  | 4 => .PartiallyAvailable
  | 5 => .Available
  | _ => .Unknown

/-- Embeds overseerr.rs `MediaStatus::as_f64`. -/
def MediaStatus.as_f64 : MediaStatus → Rat
  | .Unknown => 1
  | .Pending => 2
  | .Processing => 3
  | .PartiallyAvailable => 4
  | .Available => 5

/-- Normalised Overseerr request (src/providers/overseerr.rs). -/
structure OverseerrRequest where
  media_type : String
  media_id : Int
  status : RequestStatus
  requested_by : String
  media_status : MediaStatus
  media_title : String
  requested_at : String
deriving Repr, DecidableEq

/-- A Rust `as i64` cast of an f64: truncation toward zero.  Every value
cast in the embedded code is a small nonnegative integer, where
truncation and floor agree. -/
def f64_as_i64 (x : Rat) : Int :=
  if 0 ≤ x then x.floor else -((-x).floor)

/-! ## Canonical records (src/providers/structs.rs) -/

/-- Canonical User; equality by name. -/
structure User where
  name : String
deriving Repr, DecidableEq

inductive BandwidthLocation where
  | Wan
  | Lan
  | Unknown
deriving Repr, DecidableEq

/-- Embeds structs.rs `impl From<String> for BandwidthLocation`. -/
def BandwidthLocation.ofString (location : String) : BandwidthLocation :=
  match location with
  | "wan" => .Wan
  | "lan" => .Lan
  | _ => .Unknown

structure Bandwidth where
  bandwidth : Int
  location : BandwidthLocation
deriving Repr, DecidableEq

inductive StreamDecision where
  | DirectPlay
  | DirectStream
  | Transcode
  | None
deriving Repr, DecidableEq

/-- Embeds structs.rs `impl Display for StreamDecision`. -/
def StreamDecision.toDisplay : StreamDecision → String
  | .DirectPlay => "Direct Play"
  | .DirectStream => "Direct Stream"
  | .Transcode => "Transcode"
  | .None => "None"

/-- Canonical media playback Session (src/providers/structs.rs).
progress is the f64 field, modelled as an exact rational. -/
structure Session where
  title : String
  user : String
  stream_decision : StreamDecision
  media_type : String
  state : String
  progress : Rat
  quality : String
  season_number : Option String
  episode_number : Option String
  address : String
  location : Location
  «local» : Bool
  secure : Bool
  relayed : Bool
  platform : String
  bandwidth : Bandwidth
deriving Repr, DecidableEq

inductive MediaType where
  | Movie
  | Show
  | Music
  | Book
  | Unknown
deriving Repr, DecidableEq

/-- Embeds structs.rs `impl ToString for MediaType`. -/
def MediaType.toDisplay : MediaType → String
  | .Movie => "Movie"
  | .Show => "Show"
  | .Music => "Music"
  | .Book => "Book"
  | .Unknown => "Unknown"

structure LibraryCount where
  name : String
  media_type : MediaType
  count : Int
  child_count : Option Int
  grand_child_count : Option Int
deriving Repr, DecidableEq

/-! ## Sonarr, Lidarr, Readarr, Tautulli records -/

/-- src/providers/sonarr.rs SonarrEpisode. -/
structure SonarrEpisode where
  sxe : String
  season_number : Int
  episode_number : Int
  title : String
  serie : String
  air_date : String
  has_file : Bool
deriving Repr, DecidableEq

/-- src/providers/lidarr.rs LidarrArtist. -/
structure LidarrArtist where
  name : String
  monitored : Bool
  track_file_count : Int
deriving Repr, DecidableEq

/-- src/providers/readarr.rs ReadarrAuthor. -/
structure ReadarrAuthor where
  name : String
  monitored : Bool
  book_file_count : Int
deriving Repr, DecidableEq

/-- src/providers/tautulli.rs TautulliLocation. -/
structure TautulliLocation where
  city : String
  country : String
  ip_address : String
  latitude : String
  longitude : String
deriving Repr, DecidableEq

/-- src/providers/tautulli.rs SessionSummary. -/
structure SessionSummary where
  user : String
  title : String
  state : String
  progress : String
  quality : String
  quality_profile : String
  video_stream : String
  media_type : String
  season_number : Option String
  episode_number : Option String
  location : TautulliLocation
deriving Repr, DecidableEq

/-- src/providers/structs/tautulli.rs Library. -/
structure TautulliLib where
  section_id : String
  section_name : String
  section_type : String
  agent : String
  thumb : String
  art : String
  count : String
  is_active : Int
  parent_count : Option String
  child_count : Option String
deriving Repr, DecidableEq

/-- Tautulli history entry.  The struct is referenced from src/tasks.rs
and src/prometheus.rs but its definition file is not part of the given
sources; the field list is reconstructed from the literals built in the
prometheus.rs test module (test_tautulli_history_format), which
exercises every field. -/
structure HistoryEntry where
  date : Int
  started : Int
  stopped : Int
  duration : Int
  user : String
  friendly_name : String
  full_title : String
  title : String
  parent_title : String
  grandparent_title : String
  media_type : String
  platform : String
  player : String
  year : Int
  percent_complete : Int
  watched_status : Rat
  transcode_decision : String
deriving Repr, DecidableEq

/-! ## The metric registry (prometheus_client, as used by src/prometheus.rs)

prometheus_client models: a Family is a map from a label set to a gauge;
`get_or_create(&labels).set(v)` updates the gauge at `labels`, creating
it if absent.  `Registry::register(name, help, metric)` appends an entry
to the registry without any duplicate-name check.  A registry entry
holds the state the shared Family handle has after the formatting
function returns, which is when encoding reads it. -/

structure Series where
  labels : List (String × String)
  value : Rat
deriving Repr, DecidableEq

/-- One registered metric: its name (without the homers prefix), help
text, and the label-indexed series of the registered Family.  bare is
true for a label-less Gauge registered directly (no brace block in the
text encoding). -/
structure FamilyEntry where
  name : String
  help : String
  series : List Series
  bare : Bool := false
deriving Repr, DecidableEq

abbrev Registry := List FamilyEntry

/-- Family::get_or_create(&labels).set(v): update the series at exactly
this label set, or create it. -/
def familySet (fam : List Series) (labels : List (String × String)) (v : Rat) :
    List Series :=
  if ∃ t ∈ fam, t.labels = labels then
    fam.map (fun s => if s.labels = labels then ⟨labels, v⟩ else s)
  else
    fam ++ [⟨labels, v⟩]

/-- Registry::register — a plain append, duplicate names are not
detected. -/
def register (reg : Registry) (name help : String) (series : List Series) :
    Registry :=
  reg ++ [{ name := name, help := help, series := series }]

/-- Registering a bare (unlabelled) Gauge. -/
def registerGauge (reg : Registry) (name help : String) (v : Rat) : Registry :=
  reg ++ [{ name := name, help := help, series := [⟨[], v⟩], bare := true }]

/-- Models the Rust f64 string parse for the integral strings the
encoder meets; no proved statement depends on a non-integral parse. -/
def parse_f64 (s : String) : Option Rat :=
  (s.toInt?).map (fun n => (n : Rat))

/-- prometheus.rs `parse_optional_count`. -/
def parse_optional_count (value : Option String) : Rat :=
  (value.bind parse_f64).getD 0

/-! ## Task results (src/tasks.rs) -/

structure SonarrEpisodeResult where
  name : String
  episodes : List SonarrEpisode
deriving Repr, DecidableEq

structure SonarrMissingResult where
  name : String
  episodes : List SonarrEpisode
deriving Repr, DecidableEq

structure TautulliSessionResult where
  sessions : List SessionSummary
deriving Repr, DecidableEq

structure TautulliLibraryResult where
  libraries : List TautulliLib
deriving Repr, DecidableEq

structure TautulliHistoryResult where
  total_plays : Int
  entries : List HistoryEntry
deriving Repr, DecidableEq

structure RadarrMovieResult where
  name : String
  movies : List RadarrMovie
deriving Repr, DecidableEq

structure ReadarrAuthorResult where
  name : String
  authors : List ReadarrAuthor
deriving Repr, DecidableEq

structure LidarrArtistResult where
  name : String
  artists : List LidarrArtist
deriving Repr, DecidableEq

structure OverseerrRequestResult where
  kind : String
  requests : List OverseerrRequest
deriving Repr, DecidableEq

structure SessionResult where
  name : String
  kind : String
  users : List User
  sessions : List Session
deriving Repr, DecidableEq

structure LibraryResult where
  name : String
  kind : String
  libraries : List LibraryCount
deriving Repr, DecidableEq

/-! ## Per-result encoders (src/prometheus.rs FormatAsPrometheus impls)

Each source impl registers fresh Family handles and then fills them in
one loop over the records.  The registry entries hold the Family state
after the impl returns, so a loop touching several families (each its
own disjoint state) is embedded as one fold per family, except for
SessionResult whose loop also threads accumulators between families and
is embedded as a single fold over an explicit state record. -/

/-- SonarrLabels (name, season_number, episode_number, title, serie,
sxe); the i64 labels are rendered as label strings. -/
def sonarrLabels (name : String) (ep : SonarrEpisode) : List (String × String) :=
  [("name", name), ("season_number", toString ep.season_number),
   ("episode_number", toString ep.episode_number), ("title", ep.title),
   ("serie", ep.serie), ("sxe", ep.sxe)]

def SonarrEpisodeResult.format_as_prometheus (r : SonarrEpisodeResult)
    (registry : Registry) : Registry :=
  let sonarr_episode := r.episodes.foldl
    (fun fam ep => familySet fam (sonarrLabels r.name ep)
      (if ep.has_file then 1 else 0)) []
  let episodes_total := familySet [] [("name", r.name)] (r.episodes.length : Rat)
  register
    (register registry "sonarr_today_episode" "Sonarr today episode status"
      sonarr_episode)
    "sonarr_today_episodes_total" "Sonarr today episodes count" episodes_total

def SonarrMissingResult.format_as_prometheus (r : SonarrMissingResult)
    (registry : Registry) : Registry :=
  let sonarr_episode := r.episodes.foldl
    (fun fam ep => familySet fam (sonarrLabels r.name ep)
      (if ep.has_file then 1 else 0)) []
  let episodes_total := familySet [] [("name", r.name)] (r.episodes.length : Rat)
  register
    (register registry "sonarr_missing_episode" "Sonarr missing episode status"
      sonarr_episode)
    "sonarr_missing_episodes_total" "Sonarr missing episodes count" episodes_total

def tautulliInfoLabels (s : SessionSummary) : List (String × String) :=
  [("user", s.user), ("title", s.title), ("state", s.state),
   ("media_type", s.media_type), ("quality", s.quality),
   ("quality_profile", s.quality_profile), ("video_stream", s.video_stream)]

def tautulliLocationLabels (s : SessionSummary) : List (String × String) :=
  [("user", s.user), ("title", s.title), ("city", s.location.city),
   ("country", s.location.country), ("latitude", s.location.latitude),
   ("longitude", s.location.longitude)]

def TautulliSessionResult.format_as_prometheus (r : TautulliSessionResult)
    (registry : Registry) : Registry :=
  let session_count := familySet [] [] (r.sessions.length : Rat)
  let session_info := r.sessions.foldl
    (fun fam s => familySet fam (tautulliInfoLabels s) 1) []
  let session_progress := r.sessions.foldl
    (fun fam s => familySet fam [("user", s.user), ("title", s.title)]
      ((parse_f64 s.progress).getD 0)) []
  let session_location := r.sessions.foldl
    (fun fam s => familySet fam (tautulliLocationLabels s) 1) []
  let registry := register registry "tautulli_session_count"
    "Tautulli active session count" session_count
  let registry := register registry "tautulli_session_info"
    "Tautulli session info" session_info
  let registry := register registry "tautulli_session_progress"
    "Tautulli session progress percentage" session_progress
  register registry "tautulli_session_location" "Tautulli session location"
    session_location

def tautulliLibraryLabels (library : TautulliLib) : List (String × String) :=
  [("section_name", library.section_name), ("section_type", library.section_type)]

def TautulliLibraryResult.format_as_prometheus (r : TautulliLibraryResult)
    (registry : Registry) : Registry :=
  let item_count := r.libraries.foldl
    (fun fam library => familySet fam (tautulliLibraryLabels library)
      ((parse_f64 library.count).getD 0)) []
  let parent_count := r.libraries.foldl
    (fun fam library => familySet fam (tautulliLibraryLabels library)
      (parse_optional_count library.parent_count)) []
  let child_count := r.libraries.foldl
    (fun fam library => familySet fam (tautulliLibraryLabels library)
      (parse_optional_count library.child_count)) []
  let active := r.libraries.foldl
    (fun fam library => familySet fam (tautulliLibraryLabels library)
      (library.is_active : Rat)) []
  let registry := register registry "tautulli_library_item_count"
    "Tautulli library item count" item_count
  let registry := register registry "tautulli_library_parent_count"
    "Tautulli library parent count" parent_count
  let registry := register registry "tautulli_library_child_count"
    "Tautulli library child count" child_count
  register registry "tautulli_library_active" "Tautulli library active status"
    active

/-- The per-user 24h watch counter map of the history encoder.  The Rust
HashMap iterates in arbitrary order; the model fixes first-insertion
order, a deterministic representative. -/
def bumpCount (m : List (String × Rat)) (key : String) : List (String × Rat) :=
  if ∃ p ∈ m, p.1 = key then
    m.map (fun p => if p.1 = key then (p.1, p.2 + 1) else p)
  else
    m ++ [(key, 1)]

def TautulliHistoryResult.format_as_prometheus (now : Int)
    (r : TautulliHistoryResult) (registry : Registry) : Registry :=
  let twenty_four_hours_ago := now - 86400
  let user_counts := r.entries.foldl
    (fun m entry =>
      if twenty_four_hours_ago ≤ entry.date then
        bumpCount m (if entry.friendly_name = "" then entry.user
          else entry.friendly_name)
      else m) []
  let total_24h := r.entries.foldl
    (fun acc entry =>
      if twenty_four_hours_ago ≤ entry.date then acc + 1 else acc) (0 : Rat)
  let user_watches := user_counts.foldl
    (fun fam p => familySet fam [("user", p.1)] p.2) []
  let registry := registerGauge registry "tautulli_history_total_plays"
    "Total number of plays in Tautulli history (all time)" (r.total_plays : Rat)
  let registry := register registry "tautulli_history_user_watches_24h"
    "Number of items watched per user in last 24 hours" user_watches
  registerGauge registry "tautulli_history_plays_24h"
    "Total number of plays in last 24 hours" total_24h

def radarrLabels (name : String) (movie : RadarrMovie) : List (String × String) :=
  [("name", name), ("title", movie.title)]

def RadarrMovieResult.format_as_prometheus (r : RadarrMovieResult)
    (registry : Registry) : Registry :=
  let has_file := r.movies.foldl
    (fun fam movie => familySet fam (radarrLabels r.name movie)
      (if movie.has_file then 1 else 0)) []
  let monitored := r.movies.foldl
    (fun fam movie => familySet fam (radarrLabels r.name movie)
      (if movie.monitored then 1 else 0)) []
  let available := r.movies.foldl
    (fun fam movie => familySet fam (radarrLabels r.name movie)
      (if movie.is_available then 1 else 0)) []
  let total := r.movies.foldl (fun acc _ => acc + 1) (0 : Rat)
  let mon_total := r.movies.foldl
    (fun acc movie => if movie.monitored then acc + 1 else acc) (0 : Rat)
  let miss_total := r.movies.foldl
    (fun acc movie => if movie.missing_available then acc + 1 else acc) (0 : Rat)
  let agg_labels := [("name", r.name)]
  let registry := register registry "radarr_movie_has_file"
    "Radarr movie has file on disk" has_file
  let registry := register registry "radarr_movie_monitored"
    "Radarr movie is monitored" monitored
  let registry := register registry "radarr_movie_available"
    "Radarr movie is available" available
  let registry := register registry "radarr_movies_total"
    "Radarr total movie count" (familySet [] agg_labels total)
  let registry := register registry "radarr_movies_monitored_total"
    "Radarr monitored movie count" (familySet [] agg_labels mon_total)
  register registry "radarr_movies_missing_total"
    "Radarr missing available movie count" (familySet [] agg_labels miss_total)

def LidarrArtistResult.format_as_prometheus (r : LidarrArtistResult)
    (registry : Registry) : Registry :=
  let monitored := r.artists.foldl
    (fun fam artist => familySet fam [("name", r.name), ("artist", artist.name)]
      (if artist.monitored then 1 else 0)) []
  let total := r.artists.foldl (fun acc _ => acc + 1) (0 : Rat)
  let mon_total := r.artists.foldl
    (fun acc artist => if artist.monitored then acc + 1 else acc) (0 : Rat)
  let track_total := r.artists.foldl
    (fun acc artist => acc + (artist.track_file_count : Rat)) (0 : Rat)
  let agg_labels := [("name", r.name)]
  let registry := register registry "lidarr_artist_monitored"
    "Lidarr artist is monitored" monitored
  let registry := register registry "lidarr_artists_total"
    "Lidarr total artist count" (familySet [] agg_labels total)
  let registry := register registry "lidarr_monitored_artists_total"
    "Lidarr monitored artist count" (familySet [] agg_labels mon_total)
  register registry "lidarr_tracks_total" "Lidarr total track file count"
    (familySet [] agg_labels track_total)

def ReadarrAuthorResult.format_as_prometheus (r : ReadarrAuthorResult)
    (registry : Registry) : Registry :=
  let monitored := r.authors.foldl
    (fun fam author => familySet fam [("name", r.name), ("author", author.name)]
      (if author.monitored then 1 else 0)) []
  let total := r.authors.foldl (fun acc _ => acc + 1) (0 : Rat)
  let mon_total := r.authors.foldl
    (fun acc author => if author.monitored then acc + 1 else acc) (0 : Rat)
  let book_total := r.authors.foldl
    (fun acc author => acc + (author.book_file_count : Rat)) (0 : Rat)
  let agg_labels := [("name", r.name)]
  let registry := register registry "readarr_author_monitored"
    "Readarr author is monitored" monitored
  let registry := register registry "readarr_authors_total"
    "Readarr total author count" (familySet [] agg_labels total)
  let registry := register registry "readarr_monitored_authors_total"
    "Readarr monitored author count" (familySet [] agg_labels mon_total)
  register registry "readarr_books_total" "Readarr total book file count"
    (familySet [] agg_labels book_total)

def overseerrLabels (request : OverseerrRequest) : List (String × String) :=
  [("media_type", request.media_type), ("requested_by", request.requested_by),
   ("media_title", request.media_title)]

/-- One iteration of the status-counting loop of the Overseerr encoder:
matches on the i64 cast of the status gauge value, exactly as the source
does. -/
def overseerrCountStep (acc : Rat × Rat × Rat) (request : OverseerrRequest) :
    Rat × Rat × Rat :=
  match acc with
  | (pending, approved, declined) =>
    match f64_as_i64 request.status.as_f64 with
    | 1 => (pending + 1, approved, declined)
    | 2 => (pending, approved + 1, declined)
    | 3 => (pending, approved, declined + 1)
    | _ => (pending, approved, declined)

/-- The status-counting loop of the Overseerr encoder. -/
def overseerrCounts (requests : List OverseerrRequest) : Rat × Rat × Rat :=
  requests.foldl overseerrCountStep (0, 0, 0)

def OverseerrRequestResult.format_as_prometheus (r : OverseerrRequestResult)
    (registry : Registry) : Registry :=
  let request_status := r.requests.foldl
    (fun fam request => familySet fam (overseerrLabels request)
      request.status.as_f64) []
  let media_status := r.requests.foldl
    (fun fam request => familySet fam (overseerrLabels request)
      request.media_status.as_f64) []
  let counts := overseerrCounts r.requests
  let agg_labels := [("name", r.kind)]
  let registry := register registry (r.kind ++ "_request_status")
    (r.kind ++ " request status") request_status
  let registry := register registry (r.kind ++ "_media_status")
    (r.kind ++ " media status") media_status
  let registry := register registry (r.kind ++ "_requests_total")
    (r.kind ++ " total request count")
    (familySet [] agg_labels (r.requests.length : Rat))
  let registry := register registry (r.kind ++ "_requests_pending_total")
    (r.kind ++ " pending request count") (familySet [] agg_labels counts.1)
  let registry := register registry (r.kind ++ "_requests_approved_total")
    (r.kind ++ " approved request count") (familySet [] agg_labels counts.2.1)
  register registry (r.kind ++ "_requests_declined_total")
    (r.kind ++ " declined request count") (familySet [] agg_labels counts.2.2)

/-! ## SessionResult encoder (src/prometheus.rs, the Plex/Jellyfin block)

The source loop threads four families plus two bandwidth accumulators
and the shrinking inactive-user list; it is embedded as one fold over
this state record, one field per piece of loop state, updated in source
order. -/

def sessionInfoLabels (name : String) (session : Session) :
    List (String × String) :=
  [("name", name), ("user", session.user), ("title", session.title),
   ("state", session.state), ("platform", session.platform),
   ("decision", session.stream_decision.toDisplay),
   ("media_type", session.media_type), ("quality", session.quality)]

def sessionProgressLabels (name : String) (session : Session) :
    List (String × String) :=
  [("name", name), ("user", session.user), ("title", session.title)]

def userActiveLabels (name user : String) : List (String × String) :=
  [("name", name), ("user", user)]

def sessionLocationLabels (name : String) (session : Session) :
    List (String × String) :=
  [("name", name), ("user", session.user), ("title", session.title),
   ("city", session.location.city), ("country", session.location.country),
   ("latitude", session.location.latitude),
   ("longitude", session.location.longitude)]

structure SessLoopState where
  wan_bandwidth : Rat
  lan_bandwidth : Rat
  inactive_users : List User
  session_info : List Series
  session_progress : List Series
  user_active : List Series
  session_location : List Series
deriving Repr, DecidableEq

/-- One iteration of the per-session loop of
SessionResult::format_as_prometheus. -/
def sessStep (name : String) (st : SessLoopState) (session : Session) :
    SessLoopState :=
  let st := match session.bandwidth.location with
    | .Wan => { st with
        wan_bandwidth := st.wan_bandwidth + (session.bandwidth.bandwidth : Rat) }
    | .Lan => { st with
        lan_bandwidth := st.lan_bandwidth + (session.bandwidth.bandwidth : Rat) }
    | .Unknown => st
  let st := { st with
    inactive_users := st.inactive_users.filter (fun u => u.name != session.user) }
  let st := { st with
    session_info := familySet st.session_info (sessionInfoLabels name session) 1 }
  let st := { st with
    session_progress := familySet st.session_progress
      (sessionProgressLabels name session) session.progress }
  let st := { st with
    user_active := familySet st.user_active
      (userActiveLabels name session.user) 1 }
  { st with
    session_location := familySet st.session_location
      (sessionLocationLabels name session) 1 }

def sessLoop (name : String) (users : List User) (sessions : List Session) :
    SessLoopState :=
  sessions.foldl (sessStep name) ⟨0, 0, users, [], [], [], []⟩

def SessionResult.format_as_prometheus (r : SessionResult)
    (registry : Registry) : Registry :=
  let st := sessLoop r.name r.users r.sessions
  let pfx := if r.kind = "plex" then "plex"
    else if r.kind = "jellyfin" then "jellyfin" else "unknown"
  let session_count := familySet [] [("name", r.name)] (r.sessions.length : Rat)
  let user_active := st.inactive_users.foldl
    (fun fam u => familySet fam (userActiveLabels r.name u.name) 0) st.user_active
  let session_bandwidth :=
    if r.kind = "plex" ∨ r.kind ≠ "jellyfin" then
      familySet
        (familySet [] [("name", r.name), ("location", "LAN")] st.lan_bandwidth)
        [("name", r.name), ("location", "WAN")] st.wan_bandwidth
    else []
  let registry := register registry (pfx ++ "_session_count")
    (pfx ++ " active session count") session_count
  let registry := register registry (pfx ++ "_session_info")
    (pfx ++ " session info") st.session_info
  let registry := register registry (pfx ++ "_session_progress")
    (pfx ++ " session progress percentage") st.session_progress
  let registry := register registry (pfx ++ "_user_active")
    (pfx ++ " user active status") user_active
  let registry := register registry (pfx ++ "_session_location")
    (pfx ++ " session location") st.session_location
  if r.kind = "plex" ∨ r.kind ≠ "jellyfin" then
    register registry (pfx ++ "_session_bandwidth")
      (pfx ++ " session bandwidth") session_bandwidth
  else registry

/-! ## LibraryResult encoder (src/prometheus.rs) -/

def plexLibraryLabels (name : String) (lib : LibraryCount) :
    List (String × String) :=
  [("name", name), ("library_name", lib.name),
   ("library_type", lib.media_type.toDisplay)]

structure LibCounts where
  movie_count : Int
  episode_count : Int
  season_count : Int
  show_count : Int
deriving Repr, DecidableEq

def libCountsStep (acc : LibCounts) (lib : LibraryCount) : LibCounts :=
  match lib.media_type with
  | .Movie => { acc with movie_count := acc.movie_count + lib.count }
  | .Show => { acc with
      episode_count := acc.episode_count + (lib.grand_child_count.getD 0)
      season_count := acc.season_count + (lib.child_count.getD 0)
      show_count := acc.show_count + lib.count }
  | _ => acc

def LibraryResult.format_as_prometheus (r : LibraryResult)
    (registry : Registry) : Registry :=
  let counts := r.libraries.foldl libCountsStep ⟨0, 0, 0, 0⟩
  let library_count := r.libraries.foldl
    (fun fam lib => familySet fam (plexLibraryLabels r.name lib)
      (lib.count : Rat)) []
  let library_child_count := r.libraries.foldl
    (fun fam lib => familySet fam (plexLibraryLabels r.name lib)
      ((lib.child_count.getD 0 : Int) : Rat)) []
  let library_grandchild_count := r.libraries.foldl
    (fun fam lib => familySet fam (plexLibraryLabels r.name lib)
      ((lib.grand_child_count.getD 0 : Int) : Rat)) []
  let movie_count_label := familySet [] [] (counts.movie_count : Rat)
  let show_count_label := familySet [] [] (counts.show_count : Rat)
  let season_count_label := familySet [] [] (counts.season_count : Rat)
  let episode_count_label := familySet [] [] (counts.episode_count : Rat)
  match r.kind with
  | "plex" =>
    let registry := register registry "plex_movie_count" "Plex movie count"
      movie_count_label
    let registry := register registry "plex_show_count" "Plex show count"
      show_count_label
    let registry := register registry "plex_season_count" "Plex season count"
      season_count_label
    let registry := register registry "plex_episode_count" "Plex episode count"
      episode_count_label
    let registry := register registry "plex_library_count"
      "Plex library item count" library_count
    let registry := register registry "plex_library_child_count"
      "Plex library child count (seasons)" library_child_count
    register registry "plex_library_grandchild_count"
      "Plex library grandchild count (episodes)" library_grandchild_count
  | "jellyfin" =>
    let registry := register registry "jellyfin_movie_count"
      "Jellyfin movie count" movie_count_label
    let registry := register registry "jellyfin_show_count"
      "Jellyfin show count" show_count_label
    let registry := register registry "jellyfin_episode_count"
      "Jellyfin episode count" episode_count_label
    let registry := register registry "jellyfin_library_count"
      "Jellyfin library item count" library_count
    let registry := register registry "jellyfin_library_child_count"
      "Jellyfin library child count" library_child_count
    register registry "jellyfin_library_grandchild_count"
      "Jellyfin library grandchild count" library_grandchild_count
  | _ => registry

/-! ## TaskResult and the registry builder -/

inductive TaskResult where
  | SonarrToday (r : SonarrEpisodeResult)
  | SonarrMissing (r : SonarrMissingResult)
  | TautulliSession (r : TautulliSessionResult)
  | TautulliLibrary (r : TautulliLibraryResult)
  | TautulliHistory (r : TautulliHistoryResult)
  | Radarr (r : RadarrMovieResult)
  | Readarr (r : ReadarrAuthorResult)
  | Lidarr (r : LidarrArtistResult)
  | Overseerr (r : OverseerrRequestResult)
  | Jellyseerr (r : OverseerrRequestResult)
  | PlexSession (r : SessionResult)
  | PlexLibrary (r : LibraryResult)
  | JellyfinSession (r : SessionResult)
  | JellyfinLibrary (r : LibraryResult)
  | Default
deriving Repr, DecidableEq

/-- src/tasks.rs `impl FormatAsPrometheus for TaskResult`.  now is the
wall-clock instant the history encoder reads. -/
def TaskResult.format_as_prometheus (now : Int) :
    TaskResult → Registry → Registry
  | .SonarrToday r, registry => r.format_as_prometheus registry
  | .SonarrMissing r, registry => r.format_as_prometheus registry
  | .TautulliSession r, registry => r.format_as_prometheus registry
  | .TautulliLibrary r, registry => r.format_as_prometheus registry
  | .TautulliHistory r, registry =>
      TautulliHistoryResult.format_as_prometheus now r registry
  | .Radarr r, registry => r.format_as_prometheus registry
  | .Readarr r, registry => r.format_as_prometheus registry
  | .Lidarr r, registry => r.format_as_prometheus registry
  | .Overseerr r, registry => r.format_as_prometheus registry
  | .Jellyseerr r, registry => r.format_as_prometheus registry
  | .PlexSession r, registry => r.format_as_prometheus registry
  | .PlexLibrary r, registry => r.format_as_prometheus registry
  | .JellyfinSession r, registry => r.format_as_prometheus registry
  | .JellyfinLibrary r, registry => r.format_as_prometheus registry
  | .Default, registry => registry

/-- The registry built by prometheus.rs `format_metrics` before
encoding. -/
def buildRegistry (now : Int) (task_result : List TaskResult) : Registry :=
  task_result.foldl (fun registry r => r.format_as_prometheus now registry) []

/-! ## The text encoder (prometheus_client encoding::text::encode)

The library always writes the OpenMetrics text exposition: per family a
HELP and TYPE line under the homers prefix, one line per series, and the
terminal EOF trailer.  Label-value escaping is performed by the library
and is irrelevant to every claim, so labels are rendered verbatim. -/

def encodeValue (v : Rat) : String :=
  if v.den = 1 then toString v.num ++ ".0" else toString v

def encodeLabels (labels : List (String × String)) : String :=
  "\x7b" ++ String.intercalate ","
    (labels.map (fun p => p.1 ++ "=\"" ++ p.2 ++ "\"")) ++ "\x7d"

def encodeSeries (e : FamilyEntry) (s : Series) : String :=
  "homers_" ++ e.name ++ (if e.bare then "" else encodeLabels s.labels) ++
    " " ++ encodeValue s.value ++ "\n"

def encodeFamily (e : FamilyEntry) : String :=
  "# HELP homers_" ++ e.name ++ " " ++ e.help ++ "\n" ++
    "# TYPE homers_" ++ e.name ++ " gauge\n" ++
    String.join (e.series.map (encodeSeries e))

/-- prometheus_client text::encode. -/
def encode (reg : Registry) : String :=
  String.join (reg.map encodeFamily) ++ "# EOF\n"

/-- prometheus.rs `format_metrics`.  Note: it does not receive the
negotiated Format; the encoding never varies. -/
def format_metrics (now : Int) (task_result : List TaskResult) : String :=
  encode (buildRegistry now task_result)

/-! ## Plex wire model and session normalisation
(src/providers/structs/plex.rs and src/providers/structs.rs) -/

namespace plex

structure Stream where
  display_title : String
  stream_type : Int
  decision : Option String
deriving Repr, DecidableEq

structure Part where
  decision : String
  container : String
  stream : List Stream
deriving Repr, DecidableEq

structure Media where
  part : List Part
  duration : Int
deriving Repr, DecidableEq

structure WireUser where
  title : String
deriving Repr, DecidableEq

structure Player where
  platform : String
  state_field : String
  «local» : Bool
  remote_public_address : String
  relayed : Bool
  secure : Bool
  product : String
  address : String
deriving Repr, DecidableEq

structure SessionInfo where
  location : String
  bandwidth : Int
deriving Repr, DecidableEq

structure SessionMetadata where
  title : String
  original_title : Option String
  parent_title : Option String
  grand_parent_title : Option String
  index : Option Int
  parent_index : Option Int
  type_field : String
  media : List Media
  user : WireUser
  player : Player
  session : SessionInfo
  view_offset : Int
deriving Repr, DecidableEq

inductive Metadata where
  | SessionMetadata (m : plex.SessionMetadata)
  | HistoryMetadata (type_field history_key : String)
  | LibraryMetadata (type_field title : String) (leaf_count child_count : Option Int)
  | Default
deriving Repr, DecidableEq

inductive MediaContainer where
  | LibraryContainer (size : Int)
  | LibraryItemsContainer (size : Int)
  | ActivityContainer (size : Int) (metadata : List Metadata)
  | StatisticsContainer
  | Default
deriving Repr, DecidableEq

structure PlexResponse where
  media_container : MediaContainer
deriving Repr, DecidableEq

end plex

/-- SessionMetadata::progress(): reads media element 0 (a panic when the
media list is empty, hence the Option) and truncates the f64 percentage
to i64.  A zero duration yields f64 infinity, saturated by the Rust
as-cast; the model returns the i64 maximum there, and no proved
statement depends on that branch. -/
def plex.SessionMetadata.progress (m : plex.SessionMetadata) : Option Int :=
  match m.media.head? with
  | none => none
  | some media0 =>
      if media0.duration = 0 then some (2 ^ 63 - 1)
      else some (f64_as_i64 ((m.view_offset : Rat) / (media0.duration : Rat) * 100))

/-- structs.rs from_async, the AsyncFrom impl taking a
plex::SessionMetadata to a canonical Session.  geo is the awaited
get_ip_info lookup.  none embeds a panic: the source indexes media 0 and
part 0 and unwraps the video stream lookup. -/
def Session.from_async (geo : String → Location) (session : plex.SessionMetadata) :
    Option Session :=
  let media_type := session.type_field
  let user := session.user.title
  let state := session.player.state_field
  match session.progress with
  | none => none
  | some progress =>
    match session.media.head? with
    | none => none
    | some media0 =>
      match media0.part.head? with
      | none => none
      | some part =>
        match part.stream.find? (fun s => s.stream_type == 1) with
        | none => none
        | some video_stream =>
          let quality := video_stream.display_title
          let season_number := session.parent_index.map toString
          let episode_number := session.index.map toString
          let location := geo session.player.remote_public_address
          let decision := part.decision
          let video_stream_decision := video_stream.decision.getD "transcode"
          let stream_decision :=
            if decision = "directplay" then StreamDecision.DirectPlay
            else if decision = "transcode" then
              if video_stream_decision = "copy" then StreamDecision.DirectStream
              else StreamDecision.Transcode
            else StreamDecision.Transcode
          some
            { title := session.grand_parent_title.getD session.title
              user := user
              stream_decision := stream_decision
              media_type := media_type
              state := state
              progress := (progress : Rat)
              quality := quality
              season_number := season_number
              episode_number := episode_number
              address := session.player.address
              location := location
              «local» := session.player.«local»
              secure := session.player.secure
              relayed := session.player.relayed
              platform := session.player.platform
              bandwidth :=
                { bandwidth := session.session.bandwidth
                  location := BandwidthLocation.ofString session.session.location } }

/-- The per-item loop of Plex::get_current_sessions: session metadata is
normalised and pushed, any other metadata is logged and skipped; a panic
inside Session::from_async aborts the whole call (none). -/
def collectPlexSessions (geo : String → Location) :
    List plex.Metadata → Option (List Session)
  | [] => some []
  | item :: rest =>
    match item with
    | .SessionMetadata meta =>
      match Session.from_async geo meta with
      | none => none
      | some session => (collectPlexSessions geo rest).map (session :: ·)
    | _ => collectPlexSessions geo rest

/-- plex.rs `Plex::get_current_sessions`.  fetch is the outcome of the
/status/sessions HTTP call; a transport or parse error, and a container
of the wrong shape, each yield the empty vector after logging; none
embeds a panic escaping the call. -/
def get_current_sessions (fetch : Except ProviderError plex.PlexResponse)
    (geo : String → Location) : Option (List Session) :=
  match fetch with
  | .error _ => some []
  | .ok sessions =>
    match sessions.media_container with
    | .ActivityContainer _ metadata => collectPlexSessions geo metadata
    | _ => some []

/-! ## Task model and the scrape executor (src/tasks.rs, src/http_server.rs)

An adapter handle owns address, secret and HTTP client; those fields
only route the outbound call, so each handle is embedded together with
the response its fetch operations produce on this scrape.  The Radarr
handle carries the raw wire fetch and the executor arm runs
get_radarr_movies on it, exactly as the source arm awaits it. -/

structure Sonarr where
  name : String
  today_shows : List SonarrEpisode
  last_week_missing_shows : List SonarrEpisode
deriving Repr, DecidableEq

structure Tautulli where
  session_summary : List SessionSummary
  libraries : List TautulliLib
deriving Repr, DecidableEq

structure Radarr where
  name : String
  movies_fetch : Except ProviderError (List WireMovie)
deriving Repr

structure Readarr where
  name : String
  authors : List ReadarrAuthor
deriving Repr, DecidableEq

structure Lidarr where
  name : String
  artists : List LidarrArtist
deriving Repr, DecidableEq

structure Overseerr where
  requests : List OverseerrRequest
deriving Repr, DecidableEq

structure Plex where
  name : String
  current_sessions : List Session
  users : List User
  all_library_size : List LibraryCount
deriving Repr, DecidableEq

structure Jellyfin where
  name : String
  current_sessions : List Session
  users : List User
  library : List LibraryCount
deriving Repr, DecidableEq

/-- src/tasks.rs Task. -/
inductive Task where
  | SonarrToday (s : Sonarr)
  | SonarrMissing (s : Sonarr)
  | Radarr (r : Radarr)
  | Readarr (r : Readarr)
  | Lidarr (l : Lidarr)
  | Overseerr (o : Overseerr)
  | Jellyseerr (o : Overseerr)
  | TautulliSession (t : Tautulli)
  | TautulliLibrary (t : Tautulli)
  | TautulliHistory (t : Tautulli)
  | PlexSession (p : Plex)
  | PlexLibrary (p : Plex)
  | JellyfinSession (j : Jellyfin)
  | JellyfinLibrary (j : Jellyfin)
  | Default
deriving Repr

/-- One task future of http_server.rs `process_tasks`.  The source match
covers SonarrToday, SonarrMissing, TautulliSession, TautulliLibrary,
Radarr, Overseerr, Jellyseerr, PlexSession, PlexLibrary,
JellyfinSession, JellyfinLibrary and Default, each arm producing
Ok of the namesake TaskResult.  The Task variants Readarr, Lidarr and
TautulliHistory declared in src/tasks.rs have no arm in that match at
all (the match is not exhaustive); the absent arms are embedded as none:
no TaskResult is produced for those variants. -/
def processTask : Task → Option TaskResult
  | .SonarrToday sonarr =>
      some (.SonarrToday { name := sonarr.name, episodes := sonarr.today_shows })
  | .SonarrMissing sonarr =>
      some (.SonarrMissing
        { name := sonarr.name, episodes := sonarr.last_week_missing_shows })
  | .TautulliSession tautulli =>
      some (.TautulliSession { sessions := tautulli.session_summary })
  | .TautulliLibrary tautulli =>
      some (.TautulliLibrary { libraries := tautulli.libraries })
  | .Radarr radarr =>
      some (.Radarr
        { name := radarr.name, movies := get_radarr_movies radarr.movies_fetch })
  | .Overseerr overseerr =>
      some (.Overseerr { kind := "overseerr", requests := overseerr.requests })
  | .Jellyseerr overseerr =>
      some (.Jellyseerr { kind := "jellyseerr", requests := overseerr.requests })
  | .PlexSession p =>
      some (.PlexSession
        { name := p.name, kind := "plex", users := p.users,
          sessions := p.current_sessions })
  | .PlexLibrary p =>
      some (.PlexLibrary
        { name := p.name, kind := "plex", libraries := p.all_library_size })
  | .JellyfinSession jellyfin =>
      some (.JellyfinSession
        { name := jellyfin.name, kind := "jellyfin", users := jellyfin.users,
          sessions := jellyfin.current_sessions })
  | .JellyfinLibrary jellyfin =>
      some (.JellyfinLibrary
        { name := jellyfin.name, kind := "jellyfin",
          libraries := jellyfin.library })
  | .Default => some .Default
  | .Readarr _ => none
  | .Lidarr _ => none
  | .TautulliHistory _ => none

/-- http_server.rs `process_tasks`: one future per task, awaited by
try_join_all.  Every arm that exists returns Ok, so the collected value
is the per-task list; a none records a Task variant for which the
source match has no arm. -/
def process_tasks (tasks : List Task) : List (Option TaskResult) :=
  tasks.map processTask

/-! ## HTTP surface (src/http_server.rs) -/

inductive Format where
  | Prometheus
  | OpenMetrics
deriving Repr, DecidableEq

/-- Rust str::contains — substring containment. -/
def containsSubstr (hay needle : String) : Bool :=
  decide (List.IsInfix needle.data hay.data)

/-- The Accept-header negotiation of the metrics handler: default
Prometheus, switched to OpenMetrics when the header value contains the
substring "openmetrics". -/
def metricsFormat (accept : Option String) : Format :=
  match accept with
  | none => .Prometheus
  | some accept_value =>
      if containsSubstr accept_value "openmetrics" then .OpenMetrics
      else .Prometheus

def get_openmetrics_content_type : String :=
  "application/openmetrics-text; version=1.0.0; charset=utf-8"

def get_text_plain_content_type : String :=
  "text/plain; version=0.0.4; charset=utf-8"

/-- http_server.rs `serve_metrics`, success path: content type chosen by
the negotiated format, body produced by format_metrics from the
collected task results — the format is not passed on to the body
encoder.  (The 500 paths concern executor scheduling failures outside
the model.) -/
def serve_metrics (now : Int) (format : Format)
    (task_results : List TaskResult) : String × String :=
  let content_type := match format with
    | .OpenMetrics => get_openmetrics_content_type
    | .Prometheus => get_text_plain_content_type
  (content_type, format_metrics now task_results)

/-- The /metrics handler: negotiate the format from the Accept header,
then serve. -/
def metrics_endpoint (now : Int) (accept : Option String)
    (task_results : List TaskResult) : String × String :=
  serve_metrics now (metricsFormat accept) task_results

/-! ## Observation helpers for the statements -/

/-- All series the registry carries under a metric name (several
registered families of the same name contribute in order). -/
def familySeries (reg : Registry) (name : String) : List Series :=
  ((reg.filter (fun e => decide (e.name = name))).map (fun e => e.series)).flatten

/-- The value of one label inside a series. -/
def labelLookup (s : Series) (key : String) : Option String :=
  (s.labels.find? (fun p => decide (p.1 = key))).map (fun p => p.2)

/-- Sum of per-session kbps over the sessions reporting a LAN bandwidth
location. -/
def lanTotal (sessions : List Session) : Rat :=
  ((sessions.filter (fun s => s.bandwidth.location == .Lan)).map
    (fun s => (s.bandwidth.bandwidth : Rat))).sum

/-- Sum of per-session kbps over the sessions reporting a WAN bandwidth
location. -/
def wanTotal (sessions : List Session) : Rat :=
  ((sessions.filter (fun s => s.bandwidth.location == .Wan)).map
    (fun s => (s.bandwidth.bandwidth : Rat))).sum

/-- Sum of per-session kbps over the sessions whose bandwidth location
is known (not Unknown). -/
def knownBandwidthTotal (sessions : List Session) : Rat :=
  ((sessions.filter (fun s => !(s.bandwidth.location == .Unknown))).map
    (fun s => (s.bandwidth.bandwidth : Rat))).sum

/-- The series the SessionResult encoder registers under the user_active
family: ones set during the session loop, zeroes set afterwards for the
remaining inactive users. -/
def userActiveSeries (r : SessionResult) : List Series :=
  let st := sessLoop r.name r.users r.sessions
  st.inactive_users.foldl
    (fun fam u => familySet fam (userActiveLabels r.name u.name) 0) st.user_active

/-! # Theorems -/

/-- C6 counterexample: stripping is not idempotent on a string that ends
in two slashes — the code strips exactly one trailing slash, so the
second application strips again. -/
theorem remove_trailing_slash_not_idempotent :
    remove_trailing_slash (remove_trailing_slash ("http://h//".data)) ≠
      remove_trailing_slash ("http://h//".data) := by decide

/-- C6 (amended): trailing-slash normalisation is idempotent on every
string that does not end in two slashes, and
strip_trailing of "http://h/" and of "http://h" are both "http://h". -/
theorem remove_trailing_slash_idempotent_unless_double_slash (s : List Char)
    (h : ¬ List.IsSuffix ['/', '/'] s) :
    remove_trailing_slash (remove_trailing_slash s) = remove_trailing_slash s ∧
    remove_trailing_slash ("http://h/".data) = "http://h".data ∧
    remove_trailing_slash ("http://h".data) = "http://h".data := by
  refine ⟨?_, by decide, by decide⟩
  by_cases h1 : s.getLast? = some '/'
  · rcases s.eq_nil_or_concat with rfl | ⟨L, b, rfl⟩
    · simp at h1
    · simp only [List.concat_eq_append] at h h1 ⊢
      have hb : b = '/' := by simpa using h1
      subst hb
      have h2 : remove_trailing_slash (L ++ ['/']) = L := by
        simp [remove_trailing_slash]
      rw [h2]
      by_cases h3 : L.getLast? = some '/'
      · exfalso
        rcases L.eq_nil_or_concat with rfl | ⟨M, c, rfl⟩
        · simp at h3
        · have hc : c = '/' := by simpa using h3
          subst hc
          exact h ⟨M, by simp⟩
      · simp [remove_trailing_slash, h3]
  · simp [remove_trailing_slash, h1]

/-- Witness for the amended C6 theorem at the concrete string
"http://h". -/
theorem remove_trailing_slash_idempotent_witness :
    ¬ List.IsSuffix ['/', '/'] ("http://h".data) ∧
    (remove_trailing_slash (remove_trailing_slash ("http://h".data)) =
        remove_trailing_slash ("http://h".data) ∧
      remove_trailing_slash ("http://h/".data) = "http://h".data ∧
      remove_trailing_slash ("http://h".data) = "http://h".data) :=
  ⟨by decide, remove_trailing_slash_idempotent_unless_double_slash _ (by decide)⟩

/-- C9: the geo resolver is total — on lookup failure it returns the
sentinel Location with city and country "Unknown", the original input
IP, and coordinates "0.0"; on success it returns the looked-up fields
with the original IP. -/
theorem get_ip_info_contract (ip : String) (lookup : LocatorResponse) :
    get_ip_info ip none =
      { city := "Unknown", country := "Unknown", ip_address := ip,
        latitude := "0.0", longitude := "0.0" } ∧
    get_ip_info ip (some lookup) =
      { city := lookup.city, country := lookup.country, ip_address := ip,
        latitude := lookup.latitude, longitude := lookup.longitude } :=
  ⟨rfl, rfl⟩

/-- C7: every movie emitted by the Radarr adapter satisfies
missing_available = (not has_file and is_available); the field is
recomputed by set_missing_movies from the fetched wire movie on every
fetch outcome. -/
theorem get_radarr_movies_missing_available
    (fetch : Except ProviderError (List WireMovie)) (m : RadarrMovie)
    (hm : m ∈ get_radarr_movies fetch) :
    m.missing_available = ((!m.has_file) && m.is_available) := by
  rcases fetch with e | movies
  · simp [get_radarr_movies] at hm
  · simp only [get_radarr_movies, List.mem_map] at hm
    obtain ⟨movie, _, rfl⟩ := hm
    rfl

/-- Witness for C7 at a one-movie fetch. -/
theorem get_radarr_movies_missing_available_witness :
    ((⟨"Dune", false, true, true, true⟩ : RadarrMovie) ∈
      get_radarr_movies
        (Except.ok [(⟨"Dune", false, true, true⟩ : WireMovie)] :
          Except ProviderError (List WireMovie))) ∧
    RadarrMovie.missing_available ⟨"Dune", false, true, true, true⟩ =
      ((!RadarrMovie.has_file ⟨"Dune", false, true, true, true⟩) &&
        RadarrMovie.is_available ⟨"Dune", false, true, true, true⟩) :=
  ⟨by decide,
    get_radarr_movies_missing_available
      (Except.ok [(⟨"Dune", false, true, true⟩ : WireMovie)] :
        Except ProviderError (List WireMovie))
      ⟨"Dune", false, true, true, true⟩ (by decide)⟩

/-- C1: the executor match drops the Readarr, Lidarr and TautulliHistory
task variants entirely — they collect no TaskResult (the source match in
process_tasks has no arm for them), while a handled variant such as
SonarrToday yields its namesake result. -/
theorem process_tasks_missing_arms :
    process_tasks
        [Task.Readarr ⟨"readarr-main", []⟩, Task.Lidarr ⟨"lidarr-main", []⟩,
          Task.TautulliHistory ⟨[], []⟩, Task.SonarrToday ⟨"sonarr-main", [], []⟩] =
      [none, none, none,
        some (.SonarrToday { name := "sonarr-main", episodes := [] })] := rfl

/-- C2: the negotiated format only switches the Content-Type header —
the body never receives it.  format_metrics is identical for every
Accept header, and a request negotiating the Prometheus dialect (Accept
text/plain) is answered with the Prometheus content type but an
OpenMetrics body carrying the EOF trailer. -/
theorem metrics_body_ignores_negotiated_format :
    (∀ (a b : Option String) (now : Int) (res : List TaskResult),
      (metrics_endpoint now a res).2 = (metrics_endpoint now b res).2) ∧
    (metrics_endpoint 0 (some "text/plain") []).1 = get_text_plain_content_type ∧
    (metrics_endpoint 0 (some "text/plain") []).2 = "# EOF\n" ∧
    (metrics_endpoint 0 (some "application/openmetrics-text") []).1 =
      get_openmetrics_content_type :=
  ⟨fun _ _ _ _ => rfl, by decide, by decide, by decide⟩

/-- C3: two SonarrToday results from two differently named instances
register the sonarr_today_episode family name twice — the scrape
registry ends up with two same-named families of one series each, not
one family with two series. -/
theorem duplicate_sonarr_family_registration :
    ((buildRegistry 0
        [TaskResult.SonarrToday
          { name := "a",
            episodes := [⟨"S01E01", 1, 1, "Test", "Test", "2021-01-01", true⟩] },
         TaskResult.SonarrToday
          { name := "b",
            episodes := [⟨"S01E01", 1, 1, "Test", "Test", "2021-01-01", true⟩] }]).filter
        (fun e => decide (e.name = "sonarr_today_episode"))).map
      (fun e => e.series.length) = [1, 1] := by decide

/-- C4: Plex get_current_sessions is not total — a session metadata
whose Media list is empty, or whose streams carry no video stream
(stream_type 1), makes the normalisation panic (media index 0 / unwrap
on the stream lookup), modelled none; no vector is returned. -/
theorem plex_get_current_sessions_panics :
    let geo : String → Location := fun ip =>
      { city := "Unknown", country := "Unknown", ip_address := ip,
        latitude := "0.0", longitude := "0.0" }
    let meta : plex.SessionMetadata :=
      { title := "Movie", original_title := none, parent_title := none,
        grand_parent_title := none, index := none, parent_index := none,
        type_field := "movie", media := [],
        user := { title := "alice" },
        player := ⟨"Chrome", "playing", true, "203.0.113.5", false, true,
          "Plex Web", "10.0.0.2"⟩,
        session := { location := "lan", bandwidth := 8000 },
        view_offset := 0 }
    let metaNoVideo : plex.SessionMetadata :=
      { meta with media := [⟨[⟨"directplay", "mkv", []⟩], 1000⟩] }
    get_current_sessions
        (Except.ok ⟨plex.MediaContainer.ActivityContainer 1
          [plex.Metadata.SessionMetadata meta]⟩) geo = none ∧
    Session.from_async geo meta = none ∧
    Session.from_async geo metaNoVideo = none :=
  ⟨rfl, rfl, rfl⟩

/-! ## Shared helper lemmas -/

theorem familySet_nil (labels : List (String × String)) (v : Rat) :
    familySet [] labels v = [⟨labels, v⟩] := by
  simp [familySet]

theorem familySeries_register (reg : Registry) (n h : String) (s : List Series)
    (name : String) :
    familySeries (register reg n h s) name =
      familySeries reg name ++ if n = name then s else [] := by
  by_cases hn : n = name <;>
    simp [familySeries, register, List.filter_append, hn]

theorem string_append_ne (k : String) {a b : String} (h : a ≠ b) :
    k ++ a ≠ k ++ b := by
  intro he
  apply h
  have hd := congrArg String.data he
  simp only [String.data_append] at hd
  exact String.ext (List.append_cancel_left hd)

theorem overseerrCountStep_sum (acc : Rat × Rat × Rat)
    (request : OverseerrRequest) :
    (overseerrCountStep acc request).1 + (overseerrCountStep acc request).2.1 +
        (overseerrCountStep acc request).2.2 =
      acc.1 + acc.2.1 + acc.2.2 + 1 := by
  rcases acc with ⟨p, a, d⟩
  have e1 : f64_as_i64 (1 : Rat) = 1 := by decide
  have e2 : f64_as_i64 (2 : Rat) = 2 := by decide
  have e3 : f64_as_i64 (3 : Rat) = 3 := by decide
  rcases hst : request.status
  · simp [overseerrCountStep, RequestStatus.as_f64, hst, e1]; ring
  · simp [overseerrCountStep, RequestStatus.as_f64, hst, e2]; ring
  · simp [overseerrCountStep, RequestStatus.as_f64, hst, e3]; ring

theorem overseerr_fold_sum (requests : List OverseerrRequest)
    (acc : Rat × Rat × Rat) :
    (requests.foldl overseerrCountStep acc).1 +
        (requests.foldl overseerrCountStep acc).2.1 +
        (requests.foldl overseerrCountStep acc).2.2 =
      acc.1 + acc.2.1 + acc.2.2 + requests.length := by
  induction requests generalizing acc with
  | nil => simp
  | cons request rest ih =>
    rw [List.foldl_cons, ih (overseerrCountStep acc request),
      overseerrCountStep_sum]
    push_cast [List.length_cons]
    ring

/-- C10: the registered kind_requests_total gauge (the request list
length) equals pending + approved + declined as counted by the encoder
loop, and every wire status code maps to exactly one of the request
status codes 1, 2, 3, with out-of-range codes folded into Pending. -/
theorem overseerr_requests_total_partition (r : OverseerrRequestResult) :
    familySeries (r.format_as_prometheus []) (r.kind ++ "_requests_total") =
      [⟨[("name", r.kind)],
        (overseerrCounts r.requests).1 + (overseerrCounts r.requests).2.1 +
          (overseerrCounts r.requests).2.2⟩] ∧
    (∀ n : Int, (n = 2 ∧ RequestStatus.ofInt n = .Approved) ∨
      (n = 3 ∧ RequestStatus.ofInt n = .Declined) ∨
      RequestStatus.ofInt n = .Pending) := by
  constructor
  · have h1 := string_append_ne r.kind
      (show "_request_status" ≠ "_requests_total" by decide)
    have h2 := string_append_ne r.kind
      (show "_media_status" ≠ "_requests_total" by decide)
    have h4 := string_append_ne r.kind
      (show "_requests_pending_total" ≠ "_requests_total" by decide)
    have h5 := string_append_ne r.kind
      (show "_requests_approved_total" ≠ "_requests_total" by decide)
    have h6 := string_append_ne r.kind
      (show "_requests_declined_total" ≠ "_requests_total" by decide)
    have hsum := overseerr_fold_sum r.requests (0, 0, 0)
    have hlen : (r.requests.length : Rat) =
        (overseerrCounts r.requests).1 + (overseerrCounts r.requests).2.1 +
          (overseerrCounts r.requests).2.2 := by
      simp only [overseerrCounts]
      rw [hsum]
      norm_num
    simp only [OverseerrRequestResult.format_as_prometheus,
      familySeries_register]
    rw [if_neg h1, if_neg h2, if_neg h4, if_neg h5, if_neg h6]
    simp [familySeries, familySet_nil, hlen]
  · intro n
    by_cases h2 : n = 2
    · exact Or.inl ⟨h2, by rw [h2]; rfl⟩
    · by_cases h3 : n = 3
      · exact Or.inr (Or.inl ⟨h3, by rw [h3]; rfl⟩)
      · refine Or.inr (Or.inr ?_)
        unfold RequestStatus.ofInt
        split <;> simp_all

theorem familySet_singleton_ne (l1 l2 : List (String × String)) (v1 v2 : Rat)
    (h : l1 ≠ l2) : familySet [⟨l1, v1⟩] l2 v2 = [⟨l1, v1⟩, ⟨l2, v2⟩] := by
  simp [familySet, h]

theorem sessLoop_fold_lan (name : String) (sessions : List Session)
    (st : SessLoopState) :
    (sessions.foldl (sessStep name) st).lan_bandwidth =
      st.lan_bandwidth + lanTotal sessions := by
  induction sessions generalizing st with
  | nil => simp [lanTotal]
  | cons s rest ih =>
    rw [List.foldl_cons, ih]
    rcases hloc : s.bandwidth.location
    · simp [sessStep, hloc, lanTotal]
    · simp [sessStep, hloc, lanTotal]; ring
    · simp [sessStep, hloc, lanTotal]

theorem sessLoop_fold_wan (name : String) (sessions : List Session)
    (st : SessLoopState) :
    (sessions.foldl (sessStep name) st).wan_bandwidth =
      st.wan_bandwidth + wanTotal sessions := by
  induction sessions generalizing st with
  | nil => simp [wanTotal]
  | cons s rest ih =>
    rw [List.foldl_cons, ih]
    rcases hloc : s.bandwidth.location
    · simp [sessStep, hloc, wanTotal]; ring
    · simp [sessStep, hloc, wanTotal]
    · simp [sessStep, hloc, wanTotal]

theorem sessLoop_lan (name : String) (users : List User)
    (sessions : List Session) :
    (sessLoop name users sessions).lan_bandwidth = lanTotal sessions := by
  simpa [sessLoop] using sessLoop_fold_lan name sessions ⟨0, 0, users, [], [], [], []⟩

theorem sessLoop_wan (name : String) (users : List User)
    (sessions : List Session) :
    (sessLoop name users sessions).wan_bandwidth = wanTotal sessions := by
  simpa [sessLoop] using sessLoop_fold_wan name sessions ⟨0, 0, users, [], [], [], []⟩

theorem lan_wan_partition (sessions : List Session) :
    lanTotal sessions + wanTotal sessions = knownBandwidthTotal sessions := by
  induction sessions with
  | nil => simp [lanTotal, wanTotal, knownBandwidthTotal]
  | cons s rest ih =>
    rcases hloc : s.bandwidth.location <;>
      · simp [lanTotal, wanTotal, knownBandwidthTotal, hloc] at ih ⊢
        ring_nf
        ring_nf at ih
        linarith [ih]

/-- C5: the plex_session_bandwidth family carries exactly the LAN series
equal to the sum of kbps over sessions whose bandwidth location is Lan
and the WAN series equal to the sum over Wan sessions (both materialised
from the accumulators after the session loop), sessions with Unknown
location contribute to neither, and LAN + WAN equals the total kbps of
all known-location sessions. -/
theorem plex_session_bandwidth_partition (r : SessionResult)
    (h : r.kind = "plex") :
    familySeries (r.format_as_prometheus []) "plex_session_bandwidth" =
      [⟨[("name", r.name), ("location", "LAN")], lanTotal r.sessions⟩,
       ⟨[("name", r.name), ("location", "WAN")], wanTotal r.sessions⟩] ∧
    lanTotal r.sessions + wanTotal r.sessions = knownBandwidthTotal r.sessions := by
  refine ⟨?_, lan_wan_partition r.sessions⟩
  have hlabels : [("name", r.name), ("location", "LAN")] ≠
      [("name", r.name), ("location", "WAN")] := by simp
  simp only [SessionResult.format_as_prometheus, h, familySet_nil,
    familySet_singleton_ne _ _ _ _ hlabels, sessLoop_lan, sessLoop_wan]
  simp [familySeries, register]

/-- Witness for C5 at a two-session Plex result (one LAN session at
8000 kbps, one WAN session at 20000 kbps). -/
theorem plex_session_bandwidth_partition_witness :
    let s1 : Session := ⟨"The Wire", "alice", .DirectPlay, "episode", "playing",
      55, "1080p", some "1", some "3", "192.168.1.10",
      ⟨"New York", "US", "10.0.0.1", "40.71", "-74.00"⟩, true, true, false,
      "Chrome", ⟨8000, .Lan⟩⟩
    let s2 : Session := ⟨"Interstellar", "bob", .Transcode, "movie", "playing",
      30, "4K", none, none, "203.0.113.5",
      ⟨"London", "UK", "203.0.113.5", "51.50", "-0.12"⟩, false, true, false,
      "Android", ⟨20000, .Wan⟩⟩
    let r : SessionResult := ⟨"plex-home", "plex", [], [s1, s2]⟩
    r.kind = "plex" ∧
    (familySeries (r.format_as_prometheus []) "plex_session_bandwidth" =
        [⟨[("name", r.name), ("location", "LAN")], lanTotal r.sessions⟩,
         ⟨[("name", r.name), ("location", "WAN")], wanTotal r.sessions⟩] ∧
      lanTotal r.sessions + wanTotal r.sessions =
        knownBandwidthTotal r.sessions) :=
  ⟨rfl, plex_session_bandwidth_partition _ rfl⟩

theorem mem_familySet (f : List Series) (l : List (String × String)) (v : Rat)
    (s : Series) :
    s ∈ familySet f l v ↔ s = ⟨l, v⟩ ∨ (s ∈ f ∧ s.labels ≠ l) := by
  unfold familySet
  by_cases hex : ∃ t ∈ f, t.labels = l
  · rw [if_pos hex]
    constructor
    · intro hs
      rcases List.mem_map.mp hs with ⟨t, ht, hts⟩
      by_cases htl : t.labels = l
      · rw [if_pos htl] at hts
        exact Or.inl hts.symm
      · rw [if_neg htl] at hts
        exact Or.inr ⟨hts ▸ ht, hts ▸ htl⟩
    · intro hs
      rcases hs with rfl | ⟨hm, hne⟩
      · rcases hex with ⟨t, ht, htl⟩
        exact List.mem_map.mpr ⟨t, ht, by rw [if_pos htl]⟩
      · exact List.mem_map.mpr ⟨s, hm, by rw [if_neg hne]⟩
  · rw [if_neg hex]
    rw [List.mem_append, List.mem_singleton]
    constructor
    · intro hs
      rcases hs with hm | rfl
      · exact Or.inr ⟨hm, fun hl => hex ⟨s, hm, hl⟩⟩
      · exact Or.inl rfl
    · intro hs
      rcases hs with rfl | ⟨hm, _⟩
      · exact Or.inr rfl
      · exact Or.inl hm

theorem mem_foldl_familySet {α : Type} (lab : α → List (String × String))
    (v : Rat) (xs : List α) (f : List Series) (s : Series) :
    s ∈ xs.foldl (fun fam x => familySet fam (lab x) v) f ↔
      (∃ x ∈ xs, s = ⟨lab x, v⟩) ∨
      (s ∈ f ∧ ∀ x ∈ xs, s.labels ≠ lab x) := by
  induction xs generalizing f with
  | nil => simp
  | cons x rest ih =>
    rw [List.foldl_cons, ih]
    constructor
    · rintro (⟨y, hy, rfl⟩ | ⟨hmem, hall⟩)
      · exact Or.inl ⟨y, List.mem_cons_of_mem _ hy, rfl⟩
      · rcases (mem_familySet f (lab x) v s).mp hmem with rfl | ⟨hf, hne⟩
        · exact Or.inl ⟨x, List.mem_cons_self x rest, rfl⟩
        · refine Or.inr ⟨hf, ?_⟩
          intro z hz
          rcases List.mem_cons.mp hz with rfl | hz'
          · exact hne
          · exact hall z hz'
    · rintro (⟨y, hy, rfl⟩ | ⟨hf, hall⟩)
      · rcases List.mem_cons.mp hy with rfl | hy'
        · by_cases hz : ∃ z ∈ rest, lab z = lab y
          · rcases hz with ⟨z, hzr, hzl⟩
            exact Or.inl ⟨z, hzr, by rw [hzl]⟩
          · refine Or.inr ⟨(mem_familySet f (lab y) v _).mpr (Or.inl rfl), ?_⟩
            intro z hzr he
            exact hz ⟨z, hzr, by simpa using he.symm⟩
        · exact Or.inl ⟨y, hy', rfl⟩
      · refine Or.inr ⟨(mem_familySet f (lab x) v s).mpr
          (Or.inr ⟨hf, hall x (List.mem_cons_self x rest)⟩), ?_⟩
        intro z hz
        exact hall z (List.mem_cons_of_mem _ hz)

theorem mem_foldl_retain (sessions : List Session) (us : List User) (u : User) :
    u ∈ sessions.foldl
        (fun acc sess => acc.filter (fun x => x.name != sess.user)) us ↔
      u ∈ us ∧ ∀ sess ∈ sessions, sess.user ≠ u.name := by
  induction sessions generalizing us with
  | nil => simp
  | cons sess rest ih =>
    rw [List.foldl_cons, ih]
    rw [List.mem_filter]
    constructor
    · rintro ⟨⟨hu, hne⟩, hall⟩
      refine ⟨hu, ?_⟩
      intro z hz
      rcases List.mem_cons.mp hz with rfl | hz'
      · simpa [bne_iff_ne, ne_comm] using hne
      · exact hall z hz'
    · rintro ⟨hu, hall⟩
      refine ⟨⟨hu, ?_⟩, fun z hz => hall z (List.mem_cons_of_mem _ hz)⟩
      simpa [bne_iff_ne, ne_comm] using hall sess (List.mem_cons_self sess rest)

theorem sessStep_user_active (name : String) (st : SessLoopState) (s : Session) :
    (sessStep name st s).user_active =
      familySet st.user_active (userActiveLabels name s.user) 1 := by
  rcases hloc : s.bandwidth.location <;> simp [sessStep, hloc]

theorem sessStep_inactive (name : String) (st : SessLoopState) (s : Session) :
    (sessStep name st s).inactive_users =
      st.inactive_users.filter (fun x => x.name != s.user) := by
  rcases hloc : s.bandwidth.location <;> simp [sessStep, hloc]

theorem sessLoop_fold_user_active (name : String) (sessions : List Session)
    (st : SessLoopState) :
    (sessions.foldl (sessStep name) st).user_active =
      sessions.foldl
        (fun fam sess => familySet fam (userActiveLabels name sess.user) 1)
        st.user_active := by
  induction sessions generalizing st with
  | nil => rfl
  | cons s rest ih =>
    rw [List.foldl_cons, List.foldl_cons, ih, sessStep_user_active]

theorem sessLoop_fold_inactive (name : String) (sessions : List Session)
    (st : SessLoopState) :
    (sessions.foldl (sessStep name) st).inactive_users =
      sessions.foldl (fun acc sess => acc.filter (fun x => x.name != sess.user))
        st.inactive_users := by
  induction sessions generalizing st with
  | nil => rfl
  | cons s rest ih =>
    rw [List.foldl_cons, List.foldl_cons, ih, sessStep_inactive]

theorem userActiveLabels_inj (name a b : String)
    (h : userActiveLabels name a = userActiveLabels name b) : a = b := by
  simpa [userActiveLabels] using h

theorem mem_userActiveSeries (r : SessionResult) (s : Series) :
    s ∈ userActiveSeries r ↔
      (∃ sess ∈ r.sessions, s = ⟨userActiveLabels r.name sess.user, 1⟩) ∨
      (∃ u ∈ r.users, (∀ sess ∈ r.sessions, sess.user ≠ u.name) ∧
        s = ⟨userActiveLabels r.name u.name, 0⟩) := by
  have hua : (sessLoop r.name r.users r.sessions).user_active =
      r.sessions.foldl
        (fun fam sess => familySet fam (userActiveLabels r.name sess.user) 1)
        [] := by
    rw [sessLoop, sessLoop_fold_user_active]
  have hin : (sessLoop r.name r.users r.sessions).inactive_users =
      r.sessions.foldl
        (fun acc sess => acc.filter (fun x => x.name != sess.user)) r.users := by
    rw [sessLoop, sessLoop_fold_inactive]
  simp only [userActiveSeries]
  rw [hua, hin]
  rw [mem_foldl_familySet (fun u : User => userActiveLabels r.name u.name) 0]
  rw [mem_foldl_familySet (fun sess : Session => userActiveLabels r.name sess.user) 1]
  simp only [List.not_mem_nil, false_and, or_false, mem_foldl_retain]
  constructor
  · rintro (⟨u, ⟨hu, hno⟩, rfl⟩ | ⟨⟨sess, hsess, rfl⟩, _⟩)
    · exact Or.inr ⟨u, hu, hno, rfl⟩
    · exact Or.inl ⟨sess, hsess, rfl⟩
  · rintro (⟨sess, hsess, rfl⟩ | ⟨u, hu, hno, rfl⟩)
    · refine Or.inr ⟨⟨sess, hsess, rfl⟩, ?_⟩
      intro u hu he
      have hnames : sess.user = u.name :=
        userActiveLabels_inj r.name sess.user u.name (by simpa using he)
      exact hu.2 sess hsess hnames
    · exact Or.inl ⟨u, ⟨hu, hno⟩, rfl⟩

/-- C8 (amended): the user_active family registered for a media-server
SessionResult assigns each label set a single value; a user receives 1
exactly when they own an active session — even when absent from the
known-users list, which the original claim ruled out — and receives 0
exactly when they are in the known-users list and own no session; every
0-valued series therefore belongs to a known user. -/
theorem user_active_partition (r : SessionResult)
    (h : r.kind = "plex" ∨ r.kind = "jellyfin") :
    familySeries (r.format_as_prometheus [])
        ((if r.kind = "plex" then "plex" else "jellyfin") ++ "_user_active") =
      userActiveSeries r ∧
    (∀ l v w, Series.mk l v ∈ userActiveSeries r →
      Series.mk l w ∈ userActiveSeries r → v = w) ∧
    (∀ s ∈ userActiveSeries r,
      (s.value = 1 ∧ ∃ sess ∈ r.sessions,
        s.labels = userActiveLabels r.name sess.user) ∨
      (s.value = 0 ∧ ∃ u ∈ r.users,
        s.labels = userActiveLabels r.name u.name ∧
        ∀ sess ∈ r.sessions, sess.user ≠ u.name)) ∧
    (∀ sess ∈ r.sessions,
      Series.mk (userActiveLabels r.name sess.user) 1 ∈ userActiveSeries r) ∧
    (∀ u ∈ r.users, (∀ sess ∈ r.sessions, sess.user ≠ u.name) →
      Series.mk (userActiveLabels r.name u.name) 0 ∈ userActiveSeries r) := by
  refine ⟨?_, ?_, ?_, ?_, ?_⟩
  · rcases h with h | h <;>
      · simp only [SessionResult.format_as_prometheus, h, userActiveSeries]
        simp [familySeries, register]
  · intro l v w h1 h2
    rw [mem_userActiveSeries] at h1 h2
    rcases h1 with ⟨s1, hs1, he1⟩ | ⟨u1, hu1, hn1, he1⟩ <;>
      rcases h2 with ⟨s2, hs2, he2⟩ | ⟨u2, hu2, hn2, he2⟩ <;>
      injection he1 with hl1 hv1 <;> injection he2 with hl2 hv2
    · rw [hv1, hv2]
    · exfalso
      have := userActiveLabels_inj r.name s1.user u2.name (hl1 ▸ hl2)
      exact hn2 s1 hs1 this
    · exfalso
      have := userActiveLabels_inj r.name s2.user u1.name (hl2 ▸ hl1)
      exact hn1 s2 hs2 this
    · rw [hv1, hv2]
  · intro s hs
    rw [mem_userActiveSeries] at hs
    rcases hs with ⟨sess, hsess, rfl⟩ | ⟨u, hu, hno, rfl⟩
    · exact Or.inl ⟨rfl, sess, hsess, rfl⟩
    · exact Or.inr ⟨rfl, u, hu, rfl, hno⟩
  · intro sess hsess
    rw [mem_userActiveSeries]
    exact Or.inl ⟨sess, hsess, rfl⟩
  · intro u hu hno
    rw [mem_userActiveSeries]
    exact Or.inr ⟨u, hu, hno, rfl⟩

/-- C8 counterexample: with an empty known-users list and one session
owned by "alice", the encoder still emits a user_active series for
alice — a user that receives a series without being a member of the
known-users list, which the claim forbids. -/
theorem user_active_unknown_user :
    ¬ (∀ s ∈ familySeries
          (SessionResult.format_as_prometheus
            ⟨"plex-home", "plex", [],
              [⟨"The Wire", "alice", .DirectPlay, "episode", "playing", 55,
                "1080p", none, none, "192.168.1.10",
                ⟨"New York", "US", "10.0.0.1", "40.71", "-74.00"⟩, true, true,
                false, "Chrome", ⟨8000, .Lan⟩⟩]⟩ [])
          "plex_user_active",
        ∃ u ∈ ([] : List User), labelLookup s "user" = some u.name) := by
  decide

/-- Witness for the amended C8 theorem at a Plex result with known users
alice, bob and carol and sessions for alice and bob only. -/
theorem user_active_partition_witness :
    let sA : Session := ⟨"The Wire", "alice", .DirectPlay, "episode", "playing",
      55, "1080p", none, none, "10.0.0.2",
      ⟨"New York", "US", "10.0.0.2", "40.71", "-74.00"⟩, true, true, false,
      "Chrome", ⟨8000, .Lan⟩⟩
    let sB : Session := ⟨"Interstellar", "bob", .Transcode, "movie", "playing",
      30, "4K", none, none, "203.0.113.5",
      ⟨"London", "UK", "203.0.113.5", "51.50", "-0.12"⟩, false, true, false,
      "Android", ⟨20000, .Wan⟩⟩
    let r : SessionResult :=
      ⟨"plex-home", "plex", [⟨"alice"⟩, ⟨"bob"⟩, ⟨"carol"⟩], [sA, sB]⟩
    (r.kind = "plex" ∨ r.kind = "jellyfin") ∧
    (familySeries (r.format_as_prometheus [])
        ((if r.kind = "plex" then "plex" else "jellyfin") ++ "_user_active") =
      userActiveSeries r ∧
    (∀ l v w, Series.mk l v ∈ userActiveSeries r →
      Series.mk l w ∈ userActiveSeries r → v = w) ∧
    (∀ s ∈ userActiveSeries r,
      (s.value = 1 ∧ ∃ sess ∈ r.sessions,
        s.labels = userActiveLabels r.name sess.user) ∨
      (s.value = 0 ∧ ∃ u ∈ r.users,
        s.labels = userActiveLabels r.name u.name ∧
        ∀ sess ∈ r.sessions, sess.user ≠ u.name)) ∧
    (∀ sess ∈ r.sessions,
      Series.mk (userActiveLabels r.name sess.user) 1 ∈ userActiveSeries r) ∧
    (∀ u ∈ r.users, (∀ sess ∈ r.sessions, sess.user ≠ u.name) →
      Series.mk (userActiveLabels r.name u.name) 0 ∈ userActiveSeries r)) :=
  ⟨Or.inl rfl, user_active_partition _ (Or.inl rfl)⟩

end Homers
